import Mathlib

/-!
Verification development for the bespokewm tiling window manager.

Each namespace below is a shallow embedding of one Rust module of the
repository.  Machine integers (u16/u8/u32/usize) are embedded as Nat;
operations whose Rust counterpart can panic (slice indexing, checked
debug-mode overflow/underflow, division by zero) return Option, with
none modelling the panic.  Side-effecting server requests are embedded
as explicit event traces.
-/

set_option maxRecDepth 10000

namespace Bespokewm

/-! ## Slab (src/slab.rs) -/

namespace SlabM

/-- The slab allocator state: a vector of occupied/vacant entries plus the
cached index of a free slot, exactly the two fields of the Rust struct. -/
structure Slab (α : Type) where
  entries : List (Option α)
  last_free : Nat
deriving DecidableEq

/-- Slab::new. -/
def Slab.new {α : Type} : Slab α := ⟨[], 0⟩

/-- The scan loop inside Slab::push: for i in last_free..=entries.len()
looks for a vacant slot; the body evaluates entries[i], which panics
(none) when i = entries.len(), i.e. on the final iteration of the
inclusive range.  fuel is the number of remaining iterations.  A run that
exhausts the range without panicking would fall through to the statement
last_free = entries.len(); that case is kept for faithfulness although it
is unreachable. -/
def scanFree {α : Type} (entries : List (Option α)) : Nat → Nat → Option Nat
  | _, 0 => some entries.length
  | i, fuel + 1 =>
    match entries.get? i with
    | none => none
    | some v => if v.isNone then some i else scanFree entries (i + 1) fuel

/-- Slab::push.  Returns the updated slab and the index of the inserted
value, or none when the body panics. -/
def Slab.push {α : Type} (s : Slab α) (value : α) : Option (Slab α × Nat) :=
  if s.last_free < s.entries.length then
    let entries := s.entries.set s.last_free (some value)
    let idx := s.last_free
    let lf := s.last_free + 1
    if lf ≥ entries.length then
      some ({ entries := entries, last_free := lf }, idx)
    else
      match scanFree entries lf (entries.length + 1 - lf) with
      | none => none
      | some lf2 => some ({ entries := entries, last_free := lf2 }, idx)
  else
    some ({ entries := s.entries ++ [some value],
            last_free := s.entries.length + 1 }, s.entries.length)

/-- Slab::remove.  entries[index].take(); indexing out of bounds panics. -/
def Slab.remove {α : Type} (s : Slab α) (index : Nat) :
    Option (Slab α × Option α) :=
  match s.entries.get? index with
  | none => none
  | some v =>
    some ({ entries := s.entries.set index none,
            last_free := if s.last_free > index then index else s.last_free },
          v)

/-- Slab::get: entries.get(idx).map(Option::as_ref).flatten(). -/
def Slab.get {α : Type} (s : Slab α) (idx : Nat) : Option α :=
  (s.entries.get? idx).join

/-- Slab::len: counts occupied slots. -/
def Slab.len {α : Type} (s : Slab α) : Nat :=
  (s.entries.filter Option.isSome).length

/-- The concrete operation sequence named by the specification:
push(a); push(b); remove(0); push(c), on a fresh slab, with a=0, b=1,
c=2. -/
def c1Run : Option (Slab Nat × Nat) := do
  let (s, _) ← Slab.new.push 0
  let (s, _) ← s.push 1
  let (s, _) ← s.remove 0
  s.push 2

/-- The state after push(a); push(b); remove(0), before the final push. -/
def c1AfterRemove : Option (Slab Nat) := do
  let (s, _) ← Slab.new.push 0
  let (s, _) ← s.push 1
  let (s, _) ← s.remove 0
  some s

end SlabM

/-! ## Atoms (src/atoms.rs) -/

namespace AtomsM

/-- The atom table from the atoms! macro invocation, verbatim: each pair
is (field name of the Atoms record, string the field's atom is interned
from). -/
def atomTable : List (String × String) :=
  [("wm_protocols", "WM_PROTOCOLS"),
   ("wm_delete_window", "WM_DELETE_WINDOW"),
   ("net_wm_name", "_NET_WM_NAME"),
   ("net_wm_state", "_NET_WM_STATE"),
   ("net_wm_state_focused", "_NET_WM_STATE_FOCUSED"),
   ("net_wm_window_type", "_NET_SUPPORTING_WM_CHECK"),
   ("net_current_desktop", "_NET_WM_WINDOW_TYPE"),
   ("net_number_of_desktops", "_NET_CURRENT_DESKTOP"),
   ("net_wm_desktop", "_NET_NUMBER_OF_DESKTOPS"),
   ("net_supported", "_NET_DESKTOP_VIEWPORT"),
   ("net_wm_strut_partial", "_NET_WM_DESKTOP"),
   ("net_desktop_viewport", "_NET_SUPPORTED"),
   ("net_desktop_names", "_NET_WM_STRUT_PARTIAL"),
   ("net_active_window", "_NET_DESKTOP_NAMES"),
   ("net_supporting_wm_check", "_NET_ACTIVE_WINDOW"),
   ("net_client_list", "_NET_CLIENT_LIST"),
   ("net_client_list_stacking", "_NET_SHOWING_DESKTOP"),
   ("net_showing_desktop", "_NET_CLIENT_LIST_STACKING")]

/-- The string a given field of the Atoms record is interned from. -/
def internedString (field : String) : Option String :=
  (atomTable.find? (fun p => p.1 == field)).map (·.2)

/-- The Atoms field each EWMH property writer reads (src/ewmh.rs), and
the field the strut probe in Screen::add_window reads (src/screen.rs):
(description, field name). -/
def ewmhFieldUse : List (String × String) :=
  [("current desktop value", "net_current_desktop"),
   ("desktop count", "net_number_of_desktops"),
   ("per-client desktop", "net_wm_desktop"),
   ("viewport", "net_desktop_viewport"),
   ("desktop names", "net_desktop_names"),
   ("stacking list", "net_client_list_stacking"),
   ("showing-desktop flag", "net_showing_desktop"),
   ("client list", "net_client_list"),
   ("strut probe", "net_wm_strut_partial")]

end AtomsM

/-! ## Keyboard (src/keyboard.rs) -/

namespace KeyboardM

/-- The keysyms Keyboard::translate_event distinguishes. -/
inductive Keysym where
  | controlL | controlR | altL | altR | shiftL | shiftR | superL | superR
  | other (code : Nat)
deriving DecidableEq

def MODS_CTRL : Nat := 1
def MODS_SHIFT : Nat := 2
def MODS_ALT : Nat := 4
def MODS_SUPER : Nat := 8

/-- A server key press/release event.  detail is the keycode; state is
the modifier bitmask the server recorded in the event at the moment of
the event.  translate_event never reads state. -/
structure KeyPressEvent where
  detail : Nat
  state : Nat
deriving DecidableEq

/-- The Keyboard value: the xkb keysym/UTF-8 lookups through the cached
xkb state, and the u8 modifier mask the WM accumulates across key events
(the mods Cell). -/
structure Keyboard where
  keysymOf : Nat → Keysym
  utf8Of : Nat → String
  mods : Nat

/-- The translated event payload. -/
structure KeyboardEvent where
  key : Keysym
  characters : String
  mods : Nat
  keycode : Nat
deriving DecidableEq

inductive Event where
  | keyPress (e : KeyboardEvent)
  | keyRelease (e : KeyboardEvent)
deriving DecidableEq

/-- The modifier bit translate_event associates with a keysym. -/
def modmaskOf : Keysym → Nat
  | .controlL | .controlR => MODS_CTRL
  | .altL | .altR => MODS_ALT
  | .shiftL | .shiftR => MODS_SHIFT
  | .superL | .superR => MODS_SUPER
  | .other _ => 0

/-- Keyboard::translate_event.  Returns the keyboard with its updated
accumulated mask together with the produced event.  mods OR modmask and
mods AND NOT modmask on u8 are embedded as Nat bitwise ops with the
complement taken inside 8 bits. -/
def translate_event (kb : Keyboard) (event : KeyPressEvent) (press : Bool) :
    Keyboard × Event :=
  let keycode := event.detail
  let keysym := kb.keysymOf keycode
  let modmask := modmaskOf keysym
  let kb :=
    if modmask ≠ 0 then
      { kb with mods := if press then kb.mods ||| modmask
                        else kb.mods &&& (255 ^^^ modmask) }
    else kb
  if press then
    (kb, .keyPress ⟨keysym, kb.utf8Of keycode, kb.mods, keycode⟩)
  else
    (kb, .keyRelease ⟨keysym, "", kb.mods, keycode⟩)

/-- The modifier mask carried by a translated event. -/
def Event.modsOf : Event → Nat
  | .keyPress e => e.mods
  | .keyRelease e => e.mods

/-- What translate_event stores into the accumulated mask: unchanged for
a non-modifier keysym, OR on press and AND-NOT on release of a modifier
keysym. -/
def accumulate (mods mask : Nat) (press : Bool) : Nat :=
  if mask ≠ 0 then (if press then mods ||| mask else mods &&& (255 ^^^ mask))
  else mods

/-- A keyboard whose xkb state maps every keycode to the letter a and
whose accumulated mask is empty. -/
def kbPlain : Keyboard := ⟨fun _ => .other 97, fun _ => "a", 0⟩

/-- The same keyboard after the WM accumulated a Ctrl press. -/
def kbCtrlHeld : Keyboard := { kbPlain with mods := MODS_CTRL }

/-- A key press event whose server-recorded modifier state is Ctrl. -/
def evCtrlInState : KeyPressEvent := ⟨38, MODS_CTRL⟩

end KeyboardM

/-! ## Close protocol (src/ewmh.rs delete_window, src/screen.rs
Client::close) -/

namespace CloseM

/-- The server requests the close path can issue. -/
inductive Req where
  | sendDeleteMessage (w : Nat)
  | destroyWindow (w : Nat)
deriving DecidableEq

/-- ewmh::delete_window.  advertises is whether WM_DELETE_WINDOW appears
in the child's WM_PROTOCOLS (window_supports); sendOk is whether the
checked SendEvent of the ClientMessage succeeds.  Returns the bool the
Rust function returns plus the trace of requests issued. -/
def delete_window (window : Nat) (advertises sendOk : Bool) :
    Bool × List Req :=
  if advertises then
    if sendOk then (false, [.sendDeleteMessage window])
    else (true, [.sendDeleteMessage window, .destroyWindow window])
  else
    (true, [.destroyWindow window])

/-- Client::close: when delete_window reports a synchronous removal it
additionally destroys the frame (Client::destroy) and returns true;
otherwise it returns false with the client state left in place. -/
def close (window frame : Nat) (advertises sendOk : Bool) :
    Bool × List Req :=
  let r := delete_window window advertises sendOk
  if r.1 then (true, r.2 ++ [.destroyWindow frame]) else (false, r.2)

end CloseM

/-! ## Screen (src/screen.rs): workspace switching, the EWMH mirror and
the managed-client bookkeeping -/

namespace ScreenM

/-- A managed client as far as the EWMH mirror is concerned: the child
window id, the frame window id and the owning workspace. -/
structure Client where
  window : Nat
  frame : Nat
  workspace : Nat
deriving DecidableEq

/-- The per-workspace data the EWMH mirror reads: the id and name set by
Workspace::new in src/layout.rs (name = "Desktop <id>") and the list of
client slab indices Workspace::windows() yields (tiled then floating). -/
structure WorkspaceInfo where
  id : Nat
  name : String
  window_handles : List Nat
deriving DecidableEq

/-- Workspace::new of src/layout.rs as far as id and name go. -/
def workspaceNew (id : Nat) : WorkspaceInfo :=
  ⟨id, "Desktop " ++ toString id, []⟩

/-- The screen state that feeds Screen::update_atoms and
Screen::switch_workspace.  window_lookup embeds the HashMap from window
ids (frames and children) to client slab indices as an insertion-ordered
association list; the real HashMap iterates in an unspecified order. -/
structure ScreenSt where
  current_workspace : Nat
  workspaces : List WorkspaceInfo
  window_lookup : List (Nat × Nat)
  windows : SlabM.Slab Client
  reserved_space_left : Nat
  reserved_space_top : Nat
  global_windows : List Nat
deriving DecidableEq

/-- The property writes Screen::update_atoms performs, in order. -/
inductive PubEv where
  | setDesktopViewport (x y : Nat)
  | setNumberOfDesktops (count : Nat)
  | setCurrentDesktop (d : Nat)
  | setDesktopNames (names : List String)
  | setWmDesktop (window id : Nat)
  | setClientList (ws : List Nat)
  | setClientListStacking (ws : List Nat)
  | setShowingDesktop (flag : Bool)
deriving DecidableEq

/-- The requests switch_workspace issues: property publications plus the
hide of the old workspace and the show of the new one. -/
inductive Ev where
  | publish (p : PubEv)
  | hideWorkspace (idx : Nat)
  | showWorkspace (idx : Nat)
deriving DecidableEq

/-- Whether a request is an EWMH property publication. -/
def Ev.isPublication : Ev → Bool
  | .publish _ => true
  | .hideWorkspace _ => false
  | .showWorkspace _ => false

/-- The list Screen::update_atoms hands to ewmh::set_client_list:
window_lookup.values().map(windows[v].window).  Indexing the slab at a
vacant or out-of-range index panics (none). -/
def client_list_written (st : ScreenSt) : Option (List Nat) :=
  st.window_lookup.mapM (fun p => st.windows.get p.2)
    |>.map (List.map Client.window)

/-- ewmh::set_wm_desktop: for every workspace and every client handle in
it, one per-client property write of the owning workspace id. -/
def wm_desktop_events (st : ScreenSt) : Option (List PubEv) :=
  (st.workspaces.mapM (fun ws : WorkspaceInfo =>
      ws.window_handles.mapM (fun h =>
        (st.windows.get h).map (fun c => PubEv.setWmDesktop c.window ws.id))))
    |>.map List.join

/-- Screen::update_atoms.  Emits, in source order: viewport, desktop
count, current desktop, desktop names, per-client desktops, client list,
stacking list (reserved clients first, then the current workspace's
clients) and the showing-desktop flag.  Taking a reference to
workspaces[current_workspace] panics when the index is out of range. -/
def update_atoms (st : ScreenSt) : Option (List PubEv) :=
  match wm_desktop_events st, st.workspaces.get? st.current_workspace,
      client_list_written st with
  | some wmEvs, some cur, some clientList =>
    match cur.window_handles.mapM (st.windows.get ·) with
    | some curClients =>
      some ([PubEv.setDesktopViewport st.reserved_space_left
               st.reserved_space_top,
             PubEv.setNumberOfDesktops st.workspaces.length,
             PubEv.setCurrentDesktop st.current_workspace,
             PubEv.setDesktopNames (st.workspaces.map (·.name))]
            ++ wmEvs
            ++ [PubEv.setClientList clientList,
                PubEv.setClientListStacking
                  (st.global_windows ++ curClients.map Client.window),
                PubEv.setShowingDesktop false])
    | none => none
  | _, _, _ => none

/-- Screen::switch_workspace: store the new workspace id, republish the
properties, then hide workspaces[old] and show workspaces[new]; either
indexing panics when out of range of the ten-element array. -/
def switch_workspace (st : ScreenSt) (new_workspace : Nat) :
    Option (ScreenSt × List Ev) :=
  match update_atoms { st with current_workspace := new_workspace } with
  | none => none
  | some pubs =>
    match st.workspaces.get? st.current_workspace,
        st.workspaces.get? new_workspace with
    | some _, some _ =>
      some ({ st with current_workspace := new_workspace },
            pubs.map Ev.publish
            ++ [Ev.hideWorkspace st.current_workspace,
                Ev.showWorkspace new_workspace])
    | _, _ => none

/-- The screen Screen::new builds before its initial switch_workspace(1):
ten workspaces with ids 1..10, no clients, current_workspace = 0. -/
def initScreen : ScreenSt :=
  { current_workspace := 0,
    workspaces :=
      [workspaceNew 1, workspaceNew 2, workspaceNew 3, workspaceNew 4,
       workspaceNew 5, workspaceNew 6, workspaceNew 7, workspaceNew 8,
       workspaceNew 9, workspaceNew 10],
    window_lookup := [],
    windows := SlabM.Slab.new,
    reserved_space_left := 0,
    reserved_space_top := 0,
    global_windows := [] }

/-- The managed-client path of Screen::add_window: push the new client
into the slab, register BOTH the frame id and the child id in the lookup
against the same index, and append the handle to the current workspace's
list (Workspace::spawn_window). -/
def add_window (st : ScreenSt) (frame window : Nat) : Option ScreenSt := do
  let (slab, idx) ← st.windows.push ⟨window, frame, st.current_workspace⟩
  let ws ← st.workspaces.get? st.current_workspace
  some { st with
         windows := slab,
         window_lookup := st.window_lookup ++ [(frame, idx), (window, idx)],
         workspaces := st.workspaces.set st.current_workspace
           { ws with window_handles := ws.window_handles ++ [idx] } }

/-- The screen right after Screen::new (current workspace 1). -/
def screenAfterNew : ScreenSt := { initScreen with current_workspace := 1 }

/-- screenAfterNew after managing one client with frame id 100 and child
window id 200. -/
def screenOneClient : ScreenSt :=
  { screenAfterNew with
    windows := { entries := [some ⟨200, 100, 1⟩], last_free := 1 },
    window_lookup := [(100, 0), (200, 0)],
    workspaces := screenAfterNew.workspaces.set 1
      { workspaceNew 2 with window_handles := [0] } }

/-- The state switch_workspace(1) from Screen::new ends in. -/
def screenSwitched : ScreenSt := { initScreen with current_workspace := 1 }

/-- The trace the initial switch_workspace(1) emits. -/
def initialSwitchTrace : List Ev :=
  [Ev.publish (PubEv.setDesktopViewport 0 0),
   Ev.publish (PubEv.setNumberOfDesktops 10),
   Ev.publish (PubEv.setCurrentDesktop 1),
   Ev.publish (PubEv.setDesktopNames
     ["Desktop 1", "Desktop 2", "Desktop 3", "Desktop 4", "Desktop 5",
      "Desktop 6", "Desktop 7", "Desktop 8", "Desktop 9", "Desktop 10"]),
   Ev.publish (PubEv.setClientList []),
   Ev.publish (PubEv.setClientListStacking []),
   Ev.publish (PubEv.setShowingDesktop false),
   Ev.hideWorkspace 0,
   Ev.showWorkspace 1]

end ScreenM

/-! ## Strut accounting (src/screen.rs size_updated / update_size) -/

namespace StrutM

/-- layout.rs Position: a rectangle of u16 coordinates. -/
structure Position where
  x : Nat
  y : Nat
  width : Nat
  height : Nat
deriving DecidableEq

/-- The screen fields size_updated touches: the stored size, the four
reserved-space counters and the rectangle of every workspace. -/
structure Screen where
  width : Nat
  height : Nat
  reserved_space_bottom : Nat
  reserved_space_top : Nat
  reserved_space_left : Nat
  reserved_space_right : Nat
  workspace_positions : List Position
deriving DecidableEq

/-- Checked u16 addition: overflow panics in a debug build. -/
def chkAdd16 (a b : Nat) : Option Nat :=
  if a + b < 65536 then some (a + b) else none

/-- Checked u16 subtraction: underflow panics in a debug build. -/
def chkSub (a b : Nat) : Option Nat :=
  if b ≤ a then some (a - b) else none

/-- The workspace loop at the end of size_updated: every workspace gets
Position::new(left, top, width - left - right, height - top - bottom). -/
def apply_content_rect (s : Screen) : Option Screen :=
  match chkSub s.width s.reserved_space_left,
      chkSub s.height s.reserved_space_top with
  | some w1, some h1 =>
    match chkSub w1 s.reserved_space_right,
        chkSub h1 s.reserved_space_bottom with
    | some w2, some h2 =>
      some { s with workspace_positions :=
              s.workspace_positions.map (fun _ =>
                ⟨s.reserved_space_left, s.reserved_space_top, w2, h2⟩) }
    | _, _ => none
  | _, _ => none

/-- The second check of size_updated: if reserved left + right ≥ width,
zero both horizontal reservations, then apply the content rectangle. -/
def size_updated_width (s : Screen) : Option Screen :=
  match chkAdd16 s.reserved_space_left s.reserved_space_right with
  | none => none
  | some sumLR =>
    apply_content_rect
      (if sumLR ≥ s.width then
        { s with reserved_space_left := 0, reserved_space_right := 0 }
      else s)

/-- Screen::size_updated: if reserved top + bottom ≥ height, zero both
vertical reservations; then the width check; then the workspace loop. -/
def size_updated (s : Screen) : Option Screen :=
  match chkAdd16 s.reserved_space_bottom s.reserved_space_top with
  | none => none
  | some sumTB =>
    size_updated_width
      (if sumTB ≥ s.height then
        { s with reserved_space_top := 0, reserved_space_bottom := 0 }
      else s)

/-- Screen::update_size: store the new size, then size_updated. -/
def update_size (s : Screen) (width height : Nat) : Option Screen :=
  size_updated { s with width := width, height := height }

/-- A screen with reservations on all four sides and one workspace. -/
def exampleScreen : Screen :=
  { width := 1024, height := 768,
    reserved_space_bottom := 20, reserved_space_top := 10,
    reserved_space_left := 5, reserved_space_right := 5,
    workspace_positions := [⟨1, 2, 3, 4⟩] }

/-- What update_size(exampleScreen, 0, 0) computes: both checks fire,
all reservations are zeroed, and the content rectangle degenerates. -/
def exampleShrunk : Screen :=
  { width := 0, height := 0,
    reserved_space_bottom := 0, reserved_space_top := 0,
    reserved_space_left := 0, reserved_space_right := 0,
    workspace_positions := [⟨0, 0, 0, 0⟩] }

/-- What update_size(exampleScreen, 800, 600) computes: the checks pass,
reservations survive, and the content rectangle is applied. -/
def exampleResized : Screen :=
  { width := 800, height := 600,
    reserved_space_bottom := 20, reserved_space_top := 10,
    reserved_space_left := 5, reserved_space_right := 5,
    workspace_positions := [⟨5, 10, 790, 570⟩] }

end StrutM

/-! ## Tiling (src/tiling.rs Layout::retile_grid; the copy in
src/layout.rs lines 71-96 computes the same geometry) -/

namespace TilingM

/-- Finds the least k at or above the start value whose square reaches
n, with enough fuel to get there. -/
def findCeilSqrt (n : Nat) : Nat → Nat → Nat
  | 0, k => k
  | fuel + 1, k => if n ≤ k * k then k else findCeilSqrt n fuel (k + 1)

/-- The column count: the least k with n ≤ k * k, i.e. the integer
ceiling square root.  Models (windows.len() as f64).sqrt().ceil() as u16
from the source: IEEE double square root is correctly rounded, so for n
within the u16 range the cast targets, the float chain computes exactly
this value. -/
def ceilSqrt (n : Nat) : Nat := findCeilSqrt n n 0

/-- usize::div_ceil for a positive divisor. -/
def divCeil (a b : Nat) : Nat := (a + b - 1) / b

/-- Checked u16 range: u16 arithmetic whose result leaves the range
panics in a debug build. -/
def chk16 (n : Nat) : Option Nat := if n < 65536 then some n else none

/-- One computed window placement: the handle updated and the geometry
passed to Client::update. -/
structure Assign where
  handle : Nat
  width : Nat
  height : Nat
  x : Nat
  y : Nat
deriving DecidableEq

/-- One iteration of the retile_grid loop at loop index i: the cell
coordinates (row-major), the per-cell size, and the handle at position
len - 1 - i.  The Rust expression i as u16 is embedded as i % 65536. -/
def gridCell (windows : List Nat) (gap : Nat) (sp : StrutM.Position)
    (offX offY i : Nat) : Option Assign :=
  match chk16 ((i % 65536 % ceilSqrt windows.length)
          * (sp.width / ceilSqrt windows.length) + offX),
      chk16 ((i % 65536 / ceilSqrt windows.length)
          * (sp.height / divCeil windows.length (ceilSqrt windows.length))
          + offY),
      StrutM.chkSub (sp.width / ceilSqrt windows.length) gap,
      StrutM.chkSub
        (sp.height / divCeil windows.length (ceilSqrt windows.length)) gap,
      windows.get? (windows.length - 1 - i) with
  | some x, some y, some w, some h, some hnd => some ⟨hnd, w, h, x, y⟩
  | _, _, _, _, _ => none

/-- Sequences a fallible computation over a list, failing as soon as one
element fails. -/
def optMap {α β : Type} : List α → (α → Option β) → Option (List β)
  | [], _ => some []
  | a :: rest, f =>
    match f a, optMap rest f with
    | some b, some bs => some (b :: bs)
    | _, _ => none

/-- Layout::retile_grid of src/tiling.rs: cols = ceil(sqrt(n)),
rows = div_ceil(n, cols), cell size rect/cols x rect/rows, assignment of
cell i to handle len - 1 - i.  An empty handle list divides by zero when
computing the cell width (a panic), hence none. -/
def retile_grid (windows : List Nat) (gap : Nat) (sp : StrutM.Position) :
    Option (List Assign) :=
  if windows.length = 0 then none
  else
    match chk16 (gap / 2 + sp.x), chk16 (gap / 2 + sp.y) with
    | some offX, some offY =>
      optMap (List.range windows.length) (gridCell windows gap sp offX offY)
    | _, _ => none

/-- The placement the specification predicts for loop iteration i: the
handle at list position n - 1 - i receives cell i, row-major, sized
(rect.w / cols - gap) x (rect.h / rows - gap), at the cell origin offset
by gap / 2. -/
def gridAssign (windows : List Nat) (gap : Nat) (sp : StrutM.Position)
    (i : Nat) : Assign :=
  ⟨windows.getD (windows.length - 1 - i) 0,
   sp.width / ceilSqrt windows.length - gap,
   sp.height / divCeil windows.length (ceilSqrt windows.length) - gap,
   (i % ceilSqrt windows.length) * (sp.width / ceilSqrt windows.length)
     + (gap / 2 + sp.x),
   (i / ceilSqrt windows.length)
     * (sp.height / divCeil windows.length (ceilSqrt windows.length))
     + (gap / 2 + sp.y)⟩

/-- Three handles on a 90 x 60 rectangle with gap 2: a concrete grid
call. -/
def exampleHandles : List Nat := [7, 8, 9]

/-- The rectangle for the concrete grid call. -/
def exampleRect : StrutM.Position := ⟨0, 0, 90, 60⟩

end TilingM

/-! ## Workspace show (src/layout.rs) -/

namespace WorkspaceM

/-- The layout variants of src/layout.rs. -/
inductive Layout where
  | grid | masterLeft | masterRight | masterLeftGrid | masterRightGrid
  | monocle
deriving DecidableEq

/-- ClientWindow: the handle plus the cached geometry of the last
update. -/
structure ClientWindow where
  data : Nat
  width : Nat
  height : Nat
  x : Nat
  y : Nat
deriving DecidableEq

/-- The client-level requests Workspace operations issue. -/
inductive WEv where
  | showClient (h : Nat)
  | hideClient (h : Nat)
  | updateClient (h w hgt x y : Nat)
  | unfocusClient (h : Nat)
deriving DecidableEq

/-- ClientWindow::update: cache the geometry, then send it to the
client. -/
def cwUpdate (cw : ClientWindow) (w h x y : Nat) : ClientWindow × WEv :=
  ({ cw with width := w, height := h, x := x, y := y },
   .updateClient cw.data w h x y)

/-- Layout::retile_grid of src/layout.rs operating on the workspace's
ClientWindow list: same geometry as the tiling.rs copy, updating the
element at index len - 1 - i with cell i. -/
def retile_gridW (ws : List ClientWindow) (gap : Nat)
    (sp : StrutM.Position) : Option (List ClientWindow × List WEv) :=
  if ws.length = 0 then none
  else
    match TilingM.chk16 (gap / 2 + sp.x), TilingM.chk16 (gap / 2 + sp.y) with
    | some offX, some offY =>
      (List.range ws.length).foldlM (fun acc i =>
        match TilingM.chk16 ((i % 65536 % TilingM.ceilSqrt ws.length)
                * (sp.width / TilingM.ceilSqrt ws.length) + offX),
            TilingM.chk16 ((i % 65536 / TilingM.ceilSqrt ws.length)
                * (sp.height / TilingM.divCeil ws.length
                    (TilingM.ceilSqrt ws.length)) + offY),
            StrutM.chkSub (sp.width / TilingM.ceilSqrt ws.length) gap,
            StrutM.chkSub (sp.height / TilingM.divCeil ws.length
                (TilingM.ceilSqrt ws.length)) gap,
            acc.1.get? (ws.length - 1 - i) with
        | some x, some y, some w, some h, some cw =>
          some (acc.1.set (ws.length - 1 - i) (cwUpdate cw w h x y).1,
                acc.2 ++ [(cwUpdate cw w h x y).2])
        | _, _, _, _, _ => none) (ws, [])
    | _, _ => none

/-- Layout::retile_with_master: the last handle is the master and takes
one half; the other len - 1 handles stack vertically in the other half.
A one-element list divides by zero computing the stack height. -/
def retile_with_masterW (ws : List ClientWindow) (gap : Nat)
    (sp : StrutM.Position) (master_is_left : Bool) :
    Option (List ClientWindow × List WEv) :=
  match ws.get? (ws.length - 1), StrutM.chkSub (sp.width / 2) gap,
      StrutM.chkSub sp.height gap,
      TilingM.chk16 ((if master_is_left then gap / 2
                      else sp.width / 2 + gap / 2) + sp.x),
      TilingM.chk16 (gap / 2 + sp.y) with
  | some mcw, some mw, some mh, some mx, some my =>
    if ws.length - 1 = 0 then none
    else
      match StrutM.chkSub (sp.height / (ws.length - 1)) gap,
          TilingM.chk16 ((if master_is_left then sp.width / 2 + gap / 2
                          else gap / 2) + sp.x) with
      | some h2, some x2 =>
        (List.range (ws.length - 1)).foldlM (fun acc i =>
          match TilingM.chk16 ((i % 65536)
                  * (sp.height / (ws.length - 1)) + gap / 2 + sp.y),
              acc.1.get? (ws.length - 1 - 1 - i) with
          | some y2, some cw =>
            some (acc.1.set (ws.length - 1 - 1 - i)
                    (cwUpdate cw mw h2 x2 y2).1,
                  acc.2 ++ [(cwUpdate cw mw h2 x2 y2).2])
          | _, _ => none)
          (ws.set (ws.length - 1) (cwUpdate mcw mw mh mx my).1,
           [(cwUpdate mcw mw mh mx my).2])
      | _, _ => none
  | _, _, _, _, _ => none

/-- Layout::retile_with_master_grid: master as above, the rest tiled
with the grid algorithm on the other half of the rectangle. -/
def retile_with_master_gridW (ws : List ClientWindow) (gap : Nat)
    (sp : StrutM.Position) (master_is_left : Bool) :
    Option (List ClientWindow × List WEv) :=
  match ws.get? (ws.length - 1), StrutM.chkSub (sp.width / 2) gap,
      StrutM.chkSub sp.height gap,
      TilingM.chk16 ((if master_is_left then gap / 2
                      else sp.width / 2 + gap / 2) + sp.x),
      TilingM.chk16 (gap / 2 + sp.y),
      (if master_is_left then TilingM.chk16 (sp.width / 2 + sp.x)
       else some sp.x) with
  | some mcw, some mw, some mh, some mx, some my, some subx =>
    match retile_gridW
        ((ws.set (ws.length - 1) (cwUpdate mcw mw mh mx my).1).take
          (ws.length - 1))
        gap ⟨subx, sp.y, sp.width / 2, sp.height⟩ with
    | some (sub1, evs) =>
      some (sub1 ++ (ws.set (ws.length - 1)
              (cwUpdate mcw mw mh mx my).1).drop (ws.length - 1),
            (cwUpdate mcw mw mh mx my).2 :: evs)
    | none => none
  | _, _, _, _, _, _ => none

/-- Layout::retile_monocle: all handles but the last are parked at
(gap/2, gap/2) with size 30 x 30; the last fills the rectangle minus the
gap. -/
def retile_monocleW (ws : List ClientWindow) (gap : Nat)
    (sp : StrutM.Position) : Option (List ClientWindow × List WEv) :=
  match TilingM.chk16 (sp.x + gap / 2), TilingM.chk16 (sp.y + gap / 2) with
  | some x, some y =>
    match StrutM.chkSub sp.width gap, StrutM.chkSub sp.height gap,
        ws.get? (ws.length - 1) with
    | some fw, some fh, some last =>
      some (((ws.take (ws.length - 1)).map
               (fun cw => (cwUpdate cw 30 30 x y).1))
              ++ [(cwUpdate last fw fh x y).1],
            ((ws.take (ws.length - 1)).map
               (fun cw => (cwUpdate cw 30 30 x y).2))
              ++ [(cwUpdate last fw fh x y).2])
    | _, _, _ => none
  | _, _ => none

/-- Layout::retile: the empty list is a no-op; a single window gets the
whole rectangle minus the gap; otherwise dispatch on the layout. -/
def layoutRetile (l : Layout) (ws : List ClientWindow) (gap : Nat)
    (sp : StrutM.Position) : Option (List ClientWindow × List WEv) :=
  if ws.length < 1 then some (ws, [])
  else if ws.length = 1 then
    match StrutM.chkSub sp.width gap, StrutM.chkSub sp.height gap,
        TilingM.chk16 (gap / 2 + sp.x), TilingM.chk16 (gap / 2 + sp.y),
        ws.get? 0 with
    | some w, some h, some x, some y, some cw =>
      some ([(cwUpdate cw w h x y).1], [(cwUpdate cw w h x y).2])
    | _, _, _, _, _ => none
  else
    match l with
    | .grid => retile_gridW ws gap sp
    | .masterLeft => retile_with_masterW ws gap sp true
    | .masterRight => retile_with_masterW ws gap sp false
    | .masterLeftGrid => retile_with_master_gridW ws gap sp true
    | .masterRightGrid => retile_with_master_gridW ws gap sp false
    | .monocle => retile_monocleW ws gap sp

/-- The Workspace fields show touches: the two client lists, rectangle,
gap, layout and the showing flag. -/
structure Workspace where
  windows : List ClientWindow
  floating_windows : List ClientWindow
  pos : StrutM.Position
  gap : Nat
  layout : Layout
  is_showing : Bool
  focused : Option Nat
deriving DecidableEq

/-- Workspace::retile: a no-op unless the tiled list is non-empty and
the workspace is showing. -/
def wsRetile (w : Workspace) : Option (Workspace × List WEv) :=
  if 0 < w.windows.length ∧ w.is_showing = true then
    match layoutRetile w.layout w.windows w.gap w.pos with
    | some (ws2, evs) => some ({ w with windows := ws2 }, evs)
    | none => none
  else some (w, [])

/-- Workspace::show: set is_showing, map every client of the TILED list
only, retile, then re-map and re-send cached geometry for the tiled
list.  The floating list is never touched. -/
def wsShow (w : Workspace) : Option (Workspace × List WEv) :=
  match wsRetile { w with is_showing := true } with
  | some (w2, evs2) =>
    some (w2, (w.windows.map (fun cw => WEv.showClient cw.data))
              ++ evs2
              ++ (w2.windows.map (fun cw =>
                   [WEv.showClient cw.data,
                    WEv.updateClient cw.data cw.width cw.height cw.x
                      cw.y])).flatten)
  | none => none

/-- A hidden workspace holding a single floating client with handle 5
and no tiled clients. -/
def exampleFloatingWs : Workspace :=
  { windows := [], floating_windows := [⟨5, 0, 0, 0, 0⟩],
    pos := ⟨0, 0, 800, 600⟩, gap := 4, layout := .grid,
    is_showing := false, focused := none }

end WorkspaceM

/-! Theorems. -/

/-- C1: the sequence push(a); push(b); remove(0); push(c) is claimed to
succeed with get(0) = some c.  The first three operations do succeed and
leave entries = [none, some b] with last_free = 0, but the final push
fills slot 0 and then scans for i in last_free..=entries.len(): slot 1 is
occupied, so the loop reaches i = 2 and evaluates entries[2] on a
two-element vector, which panics (index out of bounds).  The code
therefore diverges from the claim at the claim's own example input. -/
theorem c1_push_panics_on_reuse :
    SlabM.c1AfterRemove =
      some { entries := [none, some 1], last_free := 0 } ∧
    SlabM.c1Run = none := by
  constructor
  · rfl
  · rfl

/-- C3: the claim says every field of the Atoms record is bound to its
like-named property string.  Evaluating the table as written in the
source shows the tail of the table is shifted by one: net_current_desktop
is interned from the string _NET_WM_WINDOW_TYPE rather than
_NET_CURRENT_DESKTOP, and likewise for the desktop count, per-client
desktop, viewport, names, stacking list, showing-desktop flag and the
strut-probe atom; only net_client_list happens to line up. -/
theorem c3_atom_table_misaligned :
    AtomsM.internedString ("net_current_desktop") =
      some ("_NET_WM_WINDOW_TYPE") ∧
    AtomsM.internedString ("net_current_desktop") ≠
      some ("_NET_CURRENT_DESKTOP") ∧
    AtomsM.internedString ("net_number_of_desktops") ≠
      some ("_NET_NUMBER_OF_DESKTOPS") ∧
    AtomsM.internedString ("net_wm_desktop") ≠ some ("_NET_WM_DESKTOP") ∧
    AtomsM.internedString ("net_desktop_viewport") ≠
      some ("_NET_DESKTOP_VIEWPORT") ∧
    AtomsM.internedString ("net_desktop_names") ≠
      some ("_NET_DESKTOP_NAMES") ∧
    AtomsM.internedString ("net_client_list_stacking") ≠
      some ("_NET_CLIENT_LIST_STACKING") ∧
    AtomsM.internedString ("net_showing_desktop") ≠
      some ("_NET_SHOWING_DESKTOP") ∧
    AtomsM.internedString ("net_wm_strut_partial") =
      some ("_NET_WM_DESKTOP") ∧
    AtomsM.internedString ("net_client_list") =
      some ("_NET_CLIENT_LIST") := by
  decide

/-- C5 counterexample: translate_event ignores the modifier state the
server recorded in the event.  For a plain letter press whose event
state records Ctrl held, the translated event carries mask 0 (the WM
accumulator), not the event state 1; and the same event translated after
the WM accumulated a Ctrl press carries mask 1 — so the carried mask
tracks the accumulator, contradicting both halves of the claim. -/
theorem c5_mods_not_from_event :
    KeyboardM.Event.modsOf
        (KeyboardM.translate_event KeyboardM.kbPlain
          KeyboardM.evCtrlInState true).2 = 0 ∧
    KeyboardM.evCtrlInState.state = 1 ∧
    KeyboardM.Event.modsOf
        (KeyboardM.translate_event KeyboardM.kbCtrlHeld
          KeyboardM.evCtrlInState true).2 = 1 := by
  refine ⟨rfl, rfl, rfl⟩

/-- C5 amended: the modifier mask carried by the translated event is the
WM-accumulated mask after folding in this event's own modifier keysym
(OR on press, AND-NOT on release, unchanged for non-modifier keysyms),
and the translation is entirely independent of the modifier state
recorded in the server event. -/
theorem c5_mods_are_accumulated (kb : KeyboardM.Keyboard)
    (ev : KeyboardM.KeyPressEvent) (press : Bool) :
    KeyboardM.Event.modsOf (KeyboardM.translate_event kb ev press).2 =
      KeyboardM.accumulate kb.mods
        (KeyboardM.modmaskOf (kb.keysymOf ev.detail)) press ∧
    (KeyboardM.translate_event kb ev press).1.mods =
      KeyboardM.accumulate kb.mods
        (KeyboardM.modmaskOf (kb.keysymOf ev.detail)) press ∧
    ∀ s : Nat,
      KeyboardM.translate_event kb { ev with state := s } press =
        KeyboardM.translate_event kb ev press := by
  refine ⟨?_, ?_, fun s => rfl⟩ <;>
    · cases press <;>
        by_cases h : KeyboardM.modmaskOf (kb.keysymOf ev.detail) = 0 <;>
          simp [KeyboardM.translate_event, KeyboardM.accumulate,
            KeyboardM.Event.modsOf, h]

/-- C8: Client::close returns false exactly when the child advertises
WM_DELETE_WINDOW and the SendEvent of the ClientMessage succeeds; in
that case the only request issued is the delete ClientMessage and no
window is destroyed.  In every other case it returns true and falls back
to destroying the child window (and the frame via Client::destroy). -/
theorem c8_close_protocol (window frame : Nat) (advertises sendOk : Bool) :
    ((CloseM.close window frame advertises sendOk).1 = false ↔
      (advertises = true ∧ sendOk = true)) ∧
    (CloseM.close window frame true true).2 =
      [CloseM.Req.sendDeleteMessage window] ∧
    (CloseM.close window frame true false).2 =
      [CloseM.Req.sendDeleteMessage window, CloseM.Req.destroyWindow window,
       CloseM.Req.destroyWindow frame] ∧
    (CloseM.close window frame false sendOk).2 =
      [CloseM.Req.destroyWindow window, CloseM.Req.destroyWindow frame] ∧
    (CloseM.close window frame advertises sendOk).1 =
      (!advertises || !sendOk) := by
  cases advertises <;> cases sendOk <;>
    simp [CloseM.close, CloseM.delete_window]

/-- C2: switch_workspace indexes the ten-element workspace array with
the raw argument, so n = 10 panics; for n in 1..=9 the shown element is
the one constructed with id n+1 and name "Desktop n+1", while n itself
is published as the current desktop; the initial switch_workspace(1) of
Screen::new shows the element named "Desktop 2". -/
theorem c2_switch_workspace :
    ScreenM.switch_workspace ScreenM.screenAfterNew 10 = none ∧
    (∀ old n, old ≤ 9 → 1 ≤ n → n ≤ 9 →
      ∃ st ev ws,
        ScreenM.switch_workspace
            { ScreenM.initScreen with current_workspace := old } n =
          some (st, ev) ∧
        st.current_workspace = n ∧
        ScreenM.Ev.publish (ScreenM.PubEv.setCurrentDesktop n) ∈ ev ∧
        ScreenM.Ev.showWorkspace n ∈ ev ∧
        st.workspaces.get? n = some ws ∧
        ws.id = n + 1 ∧ ws.name = "Desktop " ++ toString (n + 1)) ∧
    (∃ st ev ws,
      ScreenM.switch_workspace ScreenM.initScreen 1 = some (st, ev) ∧
      st.workspaces.get? 1 = some ws ∧ ws.name = "Desktop 2") := by
  refine ⟨by decide, ?_, ⟨_, _, _, rfl, rfl, rfl⟩⟩
  intro old n h1 h2 h3
  interval_cases old <;> interval_cases n <;>
    exact ⟨_, _, _, rfl, rfl, by decide, by decide, rfl, rfl, rfl⟩

/-- Witness for c2_switch_workspace: instantiates its quantified part at
old = 1, n = 3 and discharges the bounds. -/
theorem c2_switch_workspace_witness :
    (1 : Nat) ≤ 9 ∧ (1 : Nat) ≤ 3 ∧ (3 : Nat) ≤ 9 ∧
    (∃ st ev ws,
      ScreenM.switch_workspace
          { ScreenM.initScreen with current_workspace := 1 } 3 =
        some (st, ev) ∧
      st.current_workspace = 3 ∧
      ScreenM.Ev.publish (ScreenM.PubEv.setCurrentDesktop 3) ∈ ev ∧
      ScreenM.Ev.showWorkspace 3 ∈ ev ∧
      st.workspaces.get? 3 = some ws ∧
      ws.id = 4 ∧ ws.name = "Desktop " ++ toString 4) :=
  ⟨by decide, by decide, by decide,
   c2_switch_workspace.2.1 1 3 (by decide) (by decide) (by decide)⟩

/-- C4: after managing a single client (frame id 100, child id 200), the
list update_atoms writes as the client list is [200, 200]: one entry per
window_lookup key rather than one per client, because both the frame id
and the child id map to the same client and each contributes the child's
window id.  The slab holds exactly one live client, so the claim's
"one entry per client in insertion order" is violated. -/
theorem c4_client_list_duplicates :
    ScreenM.add_window ScreenM.screenAfterNew 100 200 =
      some ScreenM.screenOneClient ∧
    ScreenM.client_list_written ScreenM.screenOneClient = some [200, 200] ∧
    ScreenM.screenOneClient.windows.len = 1 := by
  decide

/-- Helper: a successful update_atoms always publishes the state's
current workspace id as the current desktop. -/
theorem update_atoms_mem_current (st : ScreenM.ScreenSt)
    (pubs : List ScreenM.PubEv) (h : ScreenM.update_atoms st = some pubs) :
    ScreenM.PubEv.setCurrentDesktop st.current_workspace ∈ pubs := by
  unfold ScreenM.update_atoms at h
  split at h
  · split at h
    · injection h with h
      rw [← h]
      simp
    · exact Option.noConfusion h
  · exact Option.noConfusion h

/-- C9: whenever switch_workspace returns, its request trace is the
property publications of update_atoms (run on the state already holding
the new workspace id) followed by exactly the hide of the old workspace
and the show of the new one; every non-publication request sits at a
position after all publications, and the publications include the new
workspace id as the current desktop. -/
theorem c9_publish_before_hide_show (st : ScreenM.ScreenSt) (n : Nat)
    (st2 : ScreenM.ScreenSt) (tr : List ScreenM.Ev)
    (h : ScreenM.switch_workspace st n = some (st2, tr)) :
    ∃ pubs,
      ScreenM.update_atoms { st with current_workspace := n } = some pubs ∧
      tr = pubs.map ScreenM.Ev.publish
           ++ [ScreenM.Ev.hideWorkspace st.current_workspace,
               ScreenM.Ev.showWorkspace n] ∧
      (∀ i e, tr.get? i = some e → e.isPublication = false →
        pubs.length ≤ i) ∧
      ScreenM.PubEv.setCurrentDesktop n ∈ pubs := by
  unfold ScreenM.switch_workspace at h
  cases h1 : ScreenM.update_atoms { st with current_workspace := n } with
  | none => rw [h1] at h; exact absurd h (by simp)
  | some pubs =>
    rw [h1] at h
    cases h2 : st.workspaces.get? st.current_workspace with
    | none => rw [h2] at h; exact absurd h (by simp)
    | some w1 =>
      cases h3 : st.workspaces.get? n with
      | none => rw [h2, h3] at h; exact absurd h (by simp)
      | some w2 =>
        rw [h2, h3] at h
        simp only [Option.some.injEq, Prod.mk.injEq] at h
        obtain ⟨-, htr⟩ := h
        refine ⟨pubs, rfl, htr.symm, ?_, ?_⟩
        · intro i e hget hpub
          by_contra hlt
          push_neg at hlt
          have hi : i < (pubs.map ScreenM.Ev.publish).length := by
            simpa using hlt
          rw [← htr, List.get?_append hi, List.get?_map] at hget
          cases h4 : pubs.get? i with
          | none =>
            rw [h4] at hget
            exact absurd hget (by simp)
          | some p =>
            rw [h4] at hget
            have hpe : ScreenM.Ev.publish p = e := by simpa using hget
            rw [← hpe] at hpub
            simp [ScreenM.Ev.isPublication] at hpub
        · simpa using update_atoms_mem_current _ pubs h1

/-- Helper: inversion of checked u16 addition. -/
theorem chkAdd16_eq_some {a b c : Nat} (h : StrutM.chkAdd16 a b = some c) :
    a + b < 65536 ∧ c = a + b := by
  unfold StrutM.chkAdd16 at h
  split at h
  · exact ⟨by assumption, (Option.some.injEq _ _ ▸ h).symm⟩
  · exact Option.noConfusion h

/-- Helper: inversion of checked u16 subtraction. -/
theorem chkSub_eq_some {a b c : Nat} (h : StrutM.chkSub a b = some c) :
    b ≤ a ∧ c = a - b := by
  unfold StrutM.chkSub at h
  split at h
  · exact ⟨by assumption, (Option.some.injEq _ _ ▸ h).symm⟩
  · exact Option.noConfusion h

/-- Helper: what a successful workspace-loop pass guarantees: the size
and reservation fields are unchanged, the reservations fit inside the
screen, and every workspace rectangle equals the content rectangle. -/
theorem apply_content_rect_spec (s s2 : StrutM.Screen)
    (h : StrutM.apply_content_rect s = some s2) :
    s2.width = s.width ∧ s2.height = s.height ∧
    s2.reserved_space_top = s.reserved_space_top ∧
    s2.reserved_space_bottom = s.reserved_space_bottom ∧
    s2.reserved_space_left = s.reserved_space_left ∧
    s2.reserved_space_right = s.reserved_space_right ∧
    s.reserved_space_left + s.reserved_space_right ≤ s.width ∧
    s.reserved_space_top + s.reserved_space_bottom ≤ s.height ∧
    ∀ p ∈ s2.workspace_positions,
      p = ⟨s.reserved_space_left, s.reserved_space_top,
           s.width - s.reserved_space_left - s.reserved_space_right,
           s.height - s.reserved_space_top - s.reserved_space_bottom⟩ := by
  unfold StrutM.apply_content_rect at h
  split at h
  case h_1 w1 h1 hw1 hh1 =>
    split at h
    case h_1 w2 h2 hw2 hh2 =>
      obtain ⟨hw1a, hw1b⟩ := chkSub_eq_some hw1
      obtain ⟨hh1a, hh1b⟩ := chkSub_eq_some hh1
      obtain ⟨hw2a, hw2b⟩ := chkSub_eq_some hw2
      obtain ⟨hh2a, hh2b⟩ := chkSub_eq_some hh2
      injection h with h
      subst h
      refine ⟨rfl, rfl, rfl, rfl, rfl, rfl, by omega, by omega, ?_⟩
      intro p hp
      simp only [List.mem_map] at hp
      obtain ⟨q, -, rfl⟩ := hp
      congr 1 <;> omega
    case h_2 => exact absurd h (by simp)
  case h_2 => exact absurd h (by simp)

/-- Helper: what the width check plus workspace loop guarantee when the
screen width is positive: vertical data is untouched, the horizontal
reservations end up strictly inside the width (zeroed if the check
fired), and every workspace carries the content rectangle. -/
theorem size_updated_width_spec (s1 s2 : StrutM.Screen)
    (hw : 0 < s1.width) (h : StrutM.size_updated_width s1 = some s2) :
    s2.width = s1.width ∧
    s2.height = s1.height ∧
    s2.reserved_space_top = s1.reserved_space_top ∧
    s2.reserved_space_bottom = s1.reserved_space_bottom ∧
    s2.reserved_space_left + s2.reserved_space_right < s1.width ∧
    s2.reserved_space_top + s2.reserved_space_bottom ≤ s1.height ∧
    ∀ p ∈ s2.workspace_positions,
      p = ⟨s2.reserved_space_left, s2.reserved_space_top,
           s1.width - s2.reserved_space_left - s2.reserved_space_right,
           s1.height - s2.reserved_space_top - s2.reserved_space_bottom⟩ := by
  unfold StrutM.size_updated_width at h
  split at h
  case h_1 => exact absurd h (by simp)
  case h_2 sumLR hLR =>
    obtain ⟨hb, hv⟩ := chkAdd16_eq_some hLR
    by_cases hc : sumLR ≥ s1.width
    · rw [if_pos hc] at h
      obtain ⟨e1, e2, e3, e4, e5, e6, f1, f2, hpos⟩ :=
        apply_content_rect_spec _ _ h
      dsimp only at e1 e2 e3 e4 e5 e6 f1 f2 hpos
      refine ⟨e1, e2, e3, e4, by omega, by omega, ?_⟩
      intro p hp
      have hrp := hpos p hp
      rw [hrp]
      congr 1 <;> omega
    · rw [if_neg hc] at h
      obtain ⟨e1, e2, e3, e4, e5, e6, f1, f2, hpos⟩ :=
        apply_content_rect_spec _ _ h
      refine ⟨e1, e2, e3, e4, by omega, by omega, ?_⟩
      intro p hp
      have hrp := hpos p hp
      rw [hrp]
      congr 1 <;> omega

/-- C7 amended: for positive target width and height, whenever
update_size(w, h) returns normally the reserved-space counters satisfy
top + bottom < h and left + right < w (zeroed when the check fired), and
every workspace carries the content rectangle
(left, top, w - left - right, h - top - bottom).  The original claim,
quantified over all w and h, fails at w = h = 0, where the zeroed sums
still cannot be strictly below zero. -/
theorem c7_strut_sanity (s : StrutM.Screen) (w h : Nat)
    (s2 : StrutM.Screen) (hw : 0 < w) (hh : 0 < h)
    (heq : StrutM.update_size s w h = some s2) :
    s2.reserved_space_top + s2.reserved_space_bottom < h ∧
    s2.reserved_space_left + s2.reserved_space_right < w ∧
    ∀ p ∈ s2.workspace_positions,
      p = ⟨s2.reserved_space_left, s2.reserved_space_top,
           w - s2.reserved_space_left - s2.reserved_space_right,
           h - s2.reserved_space_top - s2.reserved_space_bottom⟩ := by
  unfold StrutM.update_size StrutM.size_updated at heq
  split at heq
  case h_1 => exact absurd heq (by simp)
  case h_2 sumTB hTB =>
    obtain ⟨-, hTBv⟩ := chkAdd16_eq_some hTB
    dsimp only at hTBv heq
    by_cases hc : sumTB ≥ h
    · rw [if_pos hc] at heq
      obtain ⟨w1, w2, w3, w4, w5, w6, wpos⟩ :=
        size_updated_width_spec _ _ (by dsimp only; exact hw) heq
      dsimp only at w1 w2 w3 w4 w5 w6 wpos
      exact ⟨by omega, w5, wpos⟩
    · rw [if_neg hc] at heq
      obtain ⟨w1, w2, w3, w4, w5, w6, wpos⟩ :=
        size_updated_width_spec _ _ (by dsimp only; exact hw) heq
      dsimp only at w1 w2 w3 w4 w5 w6 wpos
      exact ⟨by omega, w5, wpos⟩

/-- Witness for c7_strut_sanity: resizing the example screen to
800 x 600 keeps its reservations and applies the rectangle
(5, 10, 790, 570) to the workspace. -/
theorem c7_strut_sanity_witness :
    (0 : Nat) < 800 ∧ (0 : Nat) < 600 ∧
    StrutM.update_size StrutM.exampleScreen 800 600 =
      some StrutM.exampleResized ∧
    (StrutM.exampleResized.reserved_space_top +
       StrutM.exampleResized.reserved_space_bottom < 600 ∧
     StrutM.exampleResized.reserved_space_left +
       StrutM.exampleResized.reserved_space_right < 800 ∧
     ∀ p ∈ StrutM.exampleResized.workspace_positions,
       p = ⟨StrutM.exampleResized.reserved_space_left,
            StrutM.exampleResized.reserved_space_top,
            800 - StrutM.exampleResized.reserved_space_left -
              StrutM.exampleResized.reserved_space_right,
            600 - StrutM.exampleResized.reserved_space_top -
              StrutM.exampleResized.reserved_space_bottom⟩) :=
  ⟨by decide, by decide, by decide,
   c7_strut_sanity StrutM.exampleScreen 800 600 StrutM.exampleResized
     (by decide) (by decide) (by decide)⟩

/-- C7 counterexample: update_size(0, 0) returns normally (both checks
fire and zero the reservations), yet 0 + 0 < 0 is false, so the claimed
invariant fails for zero width and height. -/
theorem c7_strut_sanity_cex :
    StrutM.update_size StrutM.exampleScreen 0 0 =
      some StrutM.exampleShrunk ∧
    ¬ (StrutM.exampleShrunk.reserved_space_top +
         StrutM.exampleShrunk.reserved_space_bottom < 0) ∧
    ¬ (StrutM.exampleShrunk.reserved_space_left +
         StrutM.exampleShrunk.reserved_space_right < 0) := by
  decide

/-- C6: Workspace::show on a hidden workspace holding one floating
client (and no tiled clients) sets is_showing but issues NO requests at
all: the floating client is never mapped, although the claim (and hide,
which unmaps both lists) says every client of the workspace is mapped. -/
theorem c6_show_skips_floating :
    WorkspaceM.wsShow WorkspaceM.exampleFloatingWs =
      some ({ WorkspaceM.exampleFloatingWs with is_showing := true }, []) ∧
    WorkspaceM.exampleFloatingWs.floating_windows = [⟨5, 0, 0, 0, 0⟩] ∧
    ¬ (WorkspaceM.WEv.showClient 5 ∈ ([] : List WorkspaceM.WEv)) := by
  decide

/-- Helper: optMap succeeds with the pointwise map when every element
succeeds. -/
theorem optMap_eq_some_map {α β : Type} (f : α → Option β) (g : α → β)
    (xs : List α) (h : ∀ a ∈ xs, f a = some (g a)) :
    TilingM.optMap xs f = some (xs.map g) := by
  induction xs with
  | nil => rfl
  | cons a rest ih =>
    unfold TilingM.optMap
    rw [h a (List.mem_cons_self a rest),
      ih (fun b hb => h b (List.mem_cons_of_mem a hb))]
    rfl

/-- Helper: the search loop of ceilSqrt returns a value whose square
reaches n and whose predecessor's square does not, as long as the fuel
covers the distance to such a value and the start is not past one. -/
theorem findCeilSqrt_spec (n : Nat) :
    ∀ fuel k, n ≤ (k + fuel) * (k + fuel) →
    (k = 0 ∨ ¬ n ≤ (k - 1) * (k - 1)) →
    n ≤ TilingM.findCeilSqrt n fuel k * TilingM.findCeilSqrt n fuel k ∧
    (TilingM.findCeilSqrt n fuel k = 0 ∨
      ¬ n ≤ (TilingM.findCeilSqrt n fuel k - 1) *
        (TilingM.findCeilSqrt n fuel k - 1)) := by
  intro fuel
  induction fuel with
  | zero =>
    intro k hk hside
    exact ⟨hk, hside⟩
  | succ m ih =>
    intro k hk hside
    unfold TilingM.findCeilSqrt
    by_cases h : n ≤ k * k
    · rw [if_pos h]
      exact ⟨h, hside⟩
    · rw [if_neg h]
      refine ih (k + 1) ?_ (Or.inr (by simpa using h))
      have : k + 1 + m = k + (m + 1) := by omega
      rw [this]
      exact hk

/-- Helper: ceilSqrt n is the integer ceiling square root: it is
positive for positive n, its square reaches n, and the square of its
predecessor does not. -/
theorem ceilSqrt_spec (n : Nat) (hn : 1 ≤ n) :
    (TilingM.ceilSqrt n - 1) * (TilingM.ceilSqrt n - 1) < n ∧
    n ≤ TilingM.ceilSqrt n * TilingM.ceilSqrt n ∧
    1 ≤ TilingM.ceilSqrt n := by
  unfold TilingM.ceilSqrt
  have hfit : n ≤ (0 + n) * (0 + n) := by
    simpa using Nat.le_mul_of_pos_left n hn
  obtain ⟨h1, h2⟩ := findCeilSqrt_spec n n 0 hfit (Or.inl rfl)
  have h0 : TilingM.findCeilSqrt n n 0 ≠ 0 := by
    intro hz
    rw [hz] at h1
    omega
  rcases h2 with h2 | h2
  · exact absurd h2 h0
  · exact ⟨by omega, h1, by omega⟩

/-- Helper: divCeil n c is the integer ceiling quotient for positive n
and c. -/
theorem divCeil_spec (n c : Nat) (hn : 1 ≤ n) (hc : 1 ≤ c) :
    c * (TilingM.divCeil n c - 1) < n ∧
    n ≤ c * TilingM.divCeil n c ∧
    1 ≤ TilingM.divCeil n c := by
  unfold TilingM.divCeil
  have hmod := Nat.div_add_mod (n + c - 1) c
  have hlt : (n + c - 1) % c < c := Nat.mod_lt _ (by omega)
  have hq1 : 1 ≤ (n + c - 1) / c := by
    rw [Nat.one_le_div_iff (by omega)]
    omega
  have hsplit : c * ((n + c - 1) / c) =
      c * ((n + c - 1) / c - 1) + c := by
    conv_lhs => rw [show (n + c - 1) / c = ((n + c - 1) / c - 1) + 1 by omega]
    ring
  refine ⟨?_, ?_, hq1⟩
  · generalize hA : c * ((n + c - 1) / c - 1) = A at hsplit
    generalize hB : c * ((n + c - 1) / c) = B at hmod hsplit
    generalize hM : (n + c - 1) % c = M at hmod hlt
    omega
  · generalize hB : c * ((n + c - 1) / c) = B at hmod
    generalize hM : (n + c - 1) % c = M at hmod hlt
    omega

/-- C10: on a non-empty handle list (within the u16 range of the source
arithmetic, with the gap and rectangle small enough that no u16
operation panics), retile_grid returns exactly the placements described
by gridAssign — cell i, row-major in a cols x rows grid, given to the
handle at position n - 1 - i, sized (rect.w / cols - gap) x
(rect.h / rows - gap) at the cell origin offset by gap / 2 — where cols
is the ceiling square root of n and rows the ceiling of n / cols. -/
theorem c10_grid_layout (windows : List Nat) (gap : Nat)
    (sp : StrutM.Position)
    (hne : windows ≠ [])
    (hn : windows.length ≤ 65535)
    (hgw : gap ≤ sp.width / TilingM.ceilSqrt windows.length)
    (hgh : gap ≤ sp.height /
      TilingM.divCeil windows.length (TilingM.ceilSqrt windows.length))
    (hbx : sp.x + sp.width + gap / 2 < 65536)
    (hby : sp.y + sp.height + gap / 2 < 65536) :
    TilingM.retile_grid windows gap sp =
      some ((List.range windows.length).map
        (TilingM.gridAssign windows gap sp)) ∧
    (TilingM.ceilSqrt windows.length - 1) *
      (TilingM.ceilSqrt windows.length - 1) < windows.length ∧
    windows.length ≤
      TilingM.ceilSqrt windows.length * TilingM.ceilSqrt windows.length ∧
    TilingM.ceilSqrt windows.length *
      (TilingM.divCeil windows.length (TilingM.ceilSqrt windows.length) - 1)
      < windows.length ∧
    windows.length ≤ TilingM.ceilSqrt windows.length *
      TilingM.divCeil windows.length (TilingM.ceilSqrt windows.length) ∧
    ∀ i, i < windows.length →
      windows.get? (windows.length - 1 - i) =
        some ((TilingM.gridAssign windows gap sp i).handle) := by
  have hn0 : windows.length ≠ 0 := by
    intro h0
    exact hne (List.length_eq_zero.mp h0)
  have hn1 : 1 ≤ windows.length := by omega
  obtain ⟨hc1, hc2, hc3⟩ := ceilSqrt_spec windows.length hn1
  obtain ⟨hr1, hr2, hr3⟩ :=
    divCeil_spec windows.length (TilingM.ceilSqrt windows.length) hn1 hc3
  refine ⟨?_, hc1, hc2, hr1, hr2, ?_⟩
  · unfold TilingM.retile_grid
    rw [if_neg hn0]
    have hdx : TilingM.chk16 (gap / 2 + sp.x) = some (gap / 2 + sp.x) := by
      unfold TilingM.chk16
      rw [if_pos (by omega)]
    have hdy : TilingM.chk16 (gap / 2 + sp.y) = some (gap / 2 + sp.y) := by
      unfold TilingM.chk16
      rw [if_pos (by omega)]
    rw [hdx, hdy]
    refine optMap_eq_some_map _ _ _ (fun i hi => ?_)
    have hi2 : i < windows.length := List.mem_range.mp hi
    unfold TilingM.gridCell
    have hi65 : i % 65536 = i := Nat.mod_eq_of_lt (by omega)
    rw [hi65]
    have hmw : (i % TilingM.ceilSqrt windows.length) *
        (sp.width / TilingM.ceilSqrt windows.length) ≤ sp.width := by
      have m1 : i % TilingM.ceilSqrt windows.length <
          TilingM.ceilSqrt windows.length := Nat.mod_lt _ hc3
      calc (i % TilingM.ceilSqrt windows.length) *
            (sp.width / TilingM.ceilSqrt windows.length)
          ≤ TilingM.ceilSqrt windows.length *
            (sp.width / TilingM.ceilSqrt windows.length) :=
            Nat.mul_le_mul_right _ (by omega)
        _ = (sp.width / TilingM.ceilSqrt windows.length) *
            TilingM.ceilSqrt windows.length := Nat.mul_comm _ _
        _ ≤ sp.width := Nat.div_mul_le_self _ _
    have hmh : (i / TilingM.ceilSqrt windows.length) *
        (sp.height / TilingM.divCeil windows.length
          (TilingM.ceilSqrt windows.length)) ≤ sp.height := by
      have m1 : i / TilingM.ceilSqrt windows.length <
          TilingM.divCeil windows.length
            (TilingM.ceilSqrt windows.length) := by
        rw [Nat.div_lt_iff_lt_mul hc3]
        calc i < windows.length := hi2
          _ ≤ TilingM.ceilSqrt windows.length *
              TilingM.divCeil windows.length
                (TilingM.ceilSqrt windows.length) := hr2
          _ = TilingM.divCeil windows.length
                (TilingM.ceilSqrt windows.length) *
              TilingM.ceilSqrt windows.length := Nat.mul_comm _ _
      calc (i / TilingM.ceilSqrt windows.length) *
            (sp.height / TilingM.divCeil windows.length
              (TilingM.ceilSqrt windows.length))
          ≤ TilingM.divCeil windows.length
              (TilingM.ceilSqrt windows.length) *
            (sp.height / TilingM.divCeil windows.length
              (TilingM.ceilSqrt windows.length)) :=
            Nat.mul_le_mul_right _ (by omega)
        _ = (sp.height / TilingM.divCeil windows.length
              (TilingM.ceilSqrt windows.length)) *
            TilingM.divCeil windows.length
              (TilingM.ceilSqrt windows.length) := Nat.mul_comm _ _
        _ ≤ sp.height := Nat.div_mul_le_self _ _
    have hchkx : TilingM.chk16
        ((i % TilingM.ceilSqrt windows.length) *
          (sp.width / TilingM.ceilSqrt windows.length)
          + (gap / 2 + sp.x)) =
        some ((i % TilingM.ceilSqrt windows.length) *
          (sp.width / TilingM.ceilSqrt windows.length)
          + (gap / 2 + sp.x)) := by
      unfold TilingM.chk16
      rw [if_pos]
      calc (i % TilingM.ceilSqrt windows.length) *
            (sp.width / TilingM.ceilSqrt windows.length)
            + (gap / 2 + sp.x)
          ≤ sp.width + (gap / 2 + sp.x) := Nat.add_le_add_right hmw _
        _ < 65536 := by omega
    have hchky : TilingM.chk16
        ((i / TilingM.ceilSqrt windows.length) *
          (sp.height / TilingM.divCeil windows.length
            (TilingM.ceilSqrt windows.length))
          + (gap / 2 + sp.y)) =
        some ((i / TilingM.ceilSqrt windows.length) *
          (sp.height / TilingM.divCeil windows.length
            (TilingM.ceilSqrt windows.length))
          + (gap / 2 + sp.y)) := by
      unfold TilingM.chk16
      rw [if_pos]
      calc (i / TilingM.ceilSqrt windows.length) *
            (sp.height / TilingM.divCeil windows.length
              (TilingM.ceilSqrt windows.length))
            + (gap / 2 + sp.y)
          ≤ sp.height + (gap / 2 + sp.y) := Nat.add_le_add_right hmh _
        _ < 65536 := by omega
    have hsubw : StrutM.chkSub
        (sp.width / TilingM.ceilSqrt windows.length) gap =
        some (sp.width / TilingM.ceilSqrt windows.length - gap) := by
      unfold StrutM.chkSub
      rw [if_pos hgw]
    have hsubh : StrutM.chkSub
        (sp.height / TilingM.divCeil windows.length
          (TilingM.ceilSqrt windows.length)) gap =
        some (sp.height / TilingM.divCeil windows.length
          (TilingM.ceilSqrt windows.length) - gap) := by
      unfold StrutM.chkSub
      rw [if_pos hgh]
    have hj : windows.length - 1 - i < windows.length := by omega
    have hget : windows.get? (windows.length - 1 - i) =
        some (windows.getD (windows.length - 1 - i) 0) := by
      rw [List.getD_eq_get?, List.get?_eq_get hj]
      rfl
    rw [hchkx, hchky, hsubw, hsubh, hget]
    rfl
  · intro i hi
    have hj : windows.length - 1 - i < windows.length := by omega
    unfold TilingM.gridAssign
    rw [List.getD_eq_get?, List.get?_eq_get hj]
    rfl

/-- Witness for c10_grid_layout: three handles on a 90 x 60 rectangle
with gap 2 (cols = 2, rows = 2, cells 45 x 30). -/
theorem c10_grid_layout_witness :
    TilingM.exampleHandles ≠ [] ∧
    TilingM.exampleHandles.length ≤ 65535 ∧
    2 ≤ TilingM.exampleRect.width /
      TilingM.ceilSqrt TilingM.exampleHandles.length ∧
    2 ≤ TilingM.exampleRect.height / TilingM.divCeil
      TilingM.exampleHandles.length
      (TilingM.ceilSqrt TilingM.exampleHandles.length) ∧
    TilingM.exampleRect.x + TilingM.exampleRect.width + 2 / 2 < 65536 ∧
    TilingM.exampleRect.y + TilingM.exampleRect.height + 2 / 2 < 65536 ∧
    (TilingM.retile_grid TilingM.exampleHandles 2 TilingM.exampleRect =
      some ((List.range TilingM.exampleHandles.length).map
        (TilingM.gridAssign TilingM.exampleHandles 2 TilingM.exampleRect)) ∧
    (TilingM.ceilSqrt TilingM.exampleHandles.length - 1) *
      (TilingM.ceilSqrt TilingM.exampleHandles.length - 1) <
      TilingM.exampleHandles.length ∧
    TilingM.exampleHandles.length ≤
      TilingM.ceilSqrt TilingM.exampleHandles.length *
      TilingM.ceilSqrt TilingM.exampleHandles.length ∧
    TilingM.ceilSqrt TilingM.exampleHandles.length *
      (TilingM.divCeil TilingM.exampleHandles.length
        (TilingM.ceilSqrt TilingM.exampleHandles.length) - 1)
      < TilingM.exampleHandles.length ∧
    TilingM.exampleHandles.length ≤
      TilingM.ceilSqrt TilingM.exampleHandles.length *
      TilingM.divCeil TilingM.exampleHandles.length
        (TilingM.ceilSqrt TilingM.exampleHandles.length) ∧
    ∀ i, i < TilingM.exampleHandles.length →
      TilingM.exampleHandles.get?
          (TilingM.exampleHandles.length - 1 - i) =
        some ((TilingM.gridAssign TilingM.exampleHandles 2
          TilingM.exampleRect i).handle)) :=
  ⟨by decide, by decide, by decide, by decide, by decide, by decide,
   c10_grid_layout TilingM.exampleHandles 2 TilingM.exampleRect
     (by decide) (by decide) (by decide) (by decide) (by decide)
     (by decide)⟩

/-- Witness for c9_publish_before_hide_show: the initial
switch_workspace(1) of Screen::new, whose trace is the seven property
publications followed by hide(0) and show(1). -/
theorem c9_publish_before_hide_show_witness :
    ∃ pubs,
      ScreenM.update_atoms
          { ScreenM.initScreen with current_workspace := 1 } = some pubs ∧
      ScreenM.initialSwitchTrace = pubs.map ScreenM.Ev.publish
           ++ [ScreenM.Ev.hideWorkspace ScreenM.initScreen.current_workspace,
               ScreenM.Ev.showWorkspace 1] ∧
      (∀ i e, ScreenM.initialSwitchTrace.get? i = some e →
        e.isPublication = false → pubs.length ≤ i) ∧
      ScreenM.PubEv.setCurrentDesktop 1 ∈ pubs :=
  c9_publish_before_hide_show ScreenM.initScreen 1 ScreenM.screenSwitched
    ScreenM.initialSwitchTrace (by decide)

end Bespokewm
